import Mathlib

/-!
# Verification of `pyppeteer/worker.py` (the `Worker` class)

A shallow embedding of `src/pyppeteer/worker.py`.  The module is an
event-to-future adapter over a CDP session: a `Worker` stores the client,
the worker URL and a single-assignment future for its execution context;
construction registers two event handlers and sends two enable requests
(failures of the sends are logged and swallowed); the
`Runtime.executionContextCreated` handler resolves the future; the
accessors `url` / `executionContext` / `evaluate` / `evaluateHandle` read
state and delegate.

Modelling choices:
* The asyncio future `_executionContextPromise` is a `FutureState`:
  `pending` or `done v`; `setResult` on a `done` future raises
  `InvalidStateError` and leaves the stored value unchanged, as in asyncio.
* Session interactions are an explicit effect trace (`SessionState`):
  `client.on` appends a subscription effect, `client.send` appends a send
  effect and may raise (the session is parametrised by the set of methods
  whose send raises).  `try/except ...: debugError(...)` is modelled by
  pattern matching on the `Except` and appending to a `logged` list.
* Awaiting the future is `AwaitResult`: a coroutine that awaits a pending
  future is `suspended`; once the future is `done v` the await yields `v`.
* `ExecutionContext` and `JSHandle` live in `execution_context.py`, which is
  not part of the sources; they are modelled from the spec (§3, §4.1): the
  execution-context proxy wraps the session and the reported context
  descriptor, a `JSHandle` binds a remote object to an execution context,
  and the behaviour of the proxy's `evaluate` / `evaluateHandle` is an
  abstract parameter of the theorems.
-/

namespace PyppeteerWorker

/-- A CDP context descriptor, the `event['context']` payload of a
`Runtime.executionContextCreated` event. -/
structure ContextDescription where
  id : Nat
  deriving DecidableEq, Repr

/-- A CDP remote-object descriptor, the argument of the handle factory. -/
structure RemoteObject where
  objectId : Nat
  deriving DecidableEq, Repr

/-- The CDP session handed to the constructor.  `raiseOn` lists the protocol
methods whose `send` raises (e.g. because the target already detached). -/
structure Session where
  id : Nat
  raiseOn : List String
  deriving DecidableEq, Repr

/-- Modelled from the spec: `ExecutionContext` is defined in
`execution_context.py`, which is not among the sources.  Per spec §4.1 the
proxy wraps the owning session and the reported context descriptor
(`ExecutionContext(client, event['context'], jsHandleFactory)`); its
`evaluate`/`evaluateHandle` behaviour is external and is abstracted as a
parameter where needed. -/
structure ExecutionContext where
  client : Session
  payload : ContextDescription
  deriving DecidableEq, Repr

/-- Modelled from the spec: `JSHandle` is defined in `execution_context.py`,
which is not among the sources.  It binds a remote object to an execution
context over a session (`JSHandle(executionContext, client, remoteObject)`). -/
structure JSHandle where
  context : ExecutionContext
  client : Session
  remoteObject : RemoteObject
  deriving DecidableEq, Repr

/-- State of an asyncio future: unresolved, or resolved with a value. -/
inductive FutureState (α : Type) where
  | pending
  | done (value : α)
  deriving DecidableEq, Repr

/-- `future.set_result(v)`: resolves a pending future; called on an already
resolved future it raises `InvalidStateError` and the stored value is
unchanged. -/
def FutureState.setResult {α : Type} : FutureState α → α → FutureState α × Except String Unit
  | .pending, v => (.done v, .ok ())
  | .done w, _ => (.done w, .error "InvalidStateError")

/-- Outcome of `await future` for a caller scheduled now: a pending future
suspends the caller; a resolved future yields its value. -/
inductive AwaitResult (α : Type) where
  | suspended
  | value (a : α)
  deriving DecidableEq, Repr

/-- An event handler registered on the session, by identity: the worker's
internal `_on_execution_content_created`, or an externally supplied callable
(such as the caller's log-entry sink) identified by `id`. -/
inductive HandlerRef where
  | contextCreated
  | callback (id : Nat)
  deriving DecidableEq, Repr

/-- One session interaction: a handler registration (`client.on`) or a
protocol request (`client.send`). -/
inductive SessionEffect where
  | subscribe (event : String) (handler : HandlerRef)
  | send (method : String)
  deriving DecidableEq, Repr

/-- Observable session-side state: the ordered trace of interactions and the
messages logged through `debugError`. -/
structure SessionState where
  effects : List SessionEffect
  logged : List String
  deriving DecidableEq, Repr

/-- The session state before construction: no interactions, nothing logged. -/
def initialSessionState : SessionState := ⟨[], []⟩

/-- The handlers currently registered, in registration order, read off the
effect trace. -/
def SessionState.subscribed (s : SessionState) : List (String × HandlerRef) :=
  s.effects.filterMap fun e =>
    match e with
    | .subscribe ev h => some (ev, h)
    | .send _ => none

/-- `client.on(event, handler)`: registers a callback; does not fail. -/
def Session.on (_c : Session) (event : String) (handler : HandlerRef)
    (s : SessionState) : SessionState :=
  { s with effects := s.effects ++ [.subscribe event handler] }

/-- `client.send(method, {})`: issues the request (recorded in the trace) and
raises iff the session rejects this method. -/
def Session.send (c : Session) (method : String) (s : SessionState) :
    SessionState × Except String Unit :=
  ({ s with effects := s.effects ++ [.send method] },
   if method ∈ c.raiseOn then .error (method ++ " failed") else .ok ())

/-- `debugError(logger, e)`: logs the exception at debug level. -/
def debugError (s : SessionState) (e : String) : SessionState :=
  { s with logged := s.logged ++ [e] }

/-- `try: <send> except Exception as e: debugError(logger, e)` — a raised
exception is logged and swallowed; construction proceeds either way. -/
def trySendSwallow (r : SessionState × Except String Unit) : SessionState :=
  match r with
  | (s, .ok _) => s
  | (s, .error e) => debugError s e

/-- The `Worker` object's own fields (`self._client`, `self._url`,
`self._executionContextPromise`; `self._loop` is only used to create the
future and carries no further observable state). -/
structure Worker where
  _client : Session
  _url : String
  _executionContextPromise : FutureState ExecutionContext
  deriving DecidableEq, Repr

/-- `Worker.__init__(client, url, logEntryAdded)`: stores the fields, creates
the pending future, registers `_on_execution_content_created` on
`Runtime.executionContextCreated`, sends `Runtime.enable` (failure logged
and swallowed), registers the caller's `logEntryAdded` sink on
`Log.entryAdded`, sends `Log.enable` (failure logged and swallowed). -/
def Worker.init (client : Session) (url : String) (logEntryAdded : Nat)
    (s : SessionState) : Worker × SessionState :=
  let w : Worker :=
    { _client := client, _url := url, _executionContextPromise := .pending }
  let s := client.on "Runtime.executionContextCreated" HandlerRef.contextCreated s
  let s := trySendSwallow (client.send "Runtime.enable" s)
  let s := client.on "Log.entryAdded" (HandlerRef.callback logEntryAdded) s
  let s := trySendSwallow (client.send "Log.enable" s)
  (w, s)

/-- `_on_execution_content_created(event)`: builds the execution-context
proxy from `event['context']`, appends it to the local
`_execution_contexts` list read by the `jsHandleFactory` closure, and calls
`self._executionContextCallback`, i.e. `set_result`, on the promise (the
returned `Except` is the exception escaping the handler, if any).  The
factory closure is returned alongside: it reads `_execution_contexts[0]`
(`none` would model the `IndexError` on an empty list) and wraps a remote
object as `JSHandle(executionContext, client, remoteObject)`. -/
def Worker.onExecutionContextCreated (w : Worker) (event : ContextDescription) :
    Worker × Except String Unit × (RemoteObject → Option JSHandle) :=
  let executionContext : ExecutionContext := ⟨w._client, event⟩
  let executionContexts : List ExecutionContext := [] ++ [executionContext]
  let jsHandleFactory : RemoteObject → Option JSHandle := fun remoteObject =>
    executionContexts.head?.map fun ec => JSHandle.mk ec w._client remoteObject
  let (p, r) := w._executionContextPromise.setResult executionContext
  ({ w with _executionContextPromise := p }, r, jsHandleFactory)

/-- Result of calling a method on the handle: the returned value, the
worker's state after the call, and the session state after the call. -/
structure MethodResult (α : Type) where
  ret : α
  worker : Worker
  session : SessionState
  deriving DecidableEq, Repr

/-- `worker.url` property: `return self._url`.  No await, no session
interaction. -/
def Worker.url (w : Worker) (s : SessionState) : MethodResult String :=
  ⟨w._url, w, s⟩

/-- `await worker.executionContext()`: `return await
self._executionContextPromise`.  Suspends while the future is pending. -/
def Worker.executionContext (w : Worker) (s : SessionState) :
    MethodResult (AwaitResult ExecutionContext) :=
  match w._executionContextPromise with
  | .pending => ⟨.suspended, w, s⟩
  | .done ctx => ⟨.value ctx, w, s⟩

/-- `await worker.evaluate(pageFunction, *args)`: awaits the promise, then
delegates to the resolved context's `evaluate` and returns its result or
failure unchanged.  `ctxEval` is the external
`ExecutionContext.evaluate` behaviour (modelled from the spec, §3/§4.1). -/
def Worker.evaluate {Value : Type} (w : Worker)
    (ctxEval : ExecutionContext → String → List Value → Except String Value)
    (pageFunction : String) (args : List Value) (s : SessionState) :
    MethodResult (AwaitResult (Except String Value)) :=
  match w._executionContextPromise with
  | .pending => ⟨.suspended, w, s⟩
  | .done ctx => ⟨.value (ctxEval ctx pageFunction args), w, s⟩

/-- `await worker.evaluateHandle(pageFunction, *args)`: same pattern as
`evaluate`, delegating to the context's `evaluateHandle`, which returns a
`JSHandle`. -/
def Worker.evaluateHandle {Value : Type} (w : Worker)
    (ctxEvalHandle : ExecutionContext → String → List Value → Except String JSHandle)
    (pageFunction : String) (args : List Value) (s : SessionState) :
    MethodResult (AwaitResult (Except String JSHandle)) :=
  match w._executionContextPromise with
  | .pending => ⟨.suspended, w, s⟩
  | .done ctx => ⟨.value (ctxEvalHandle ctx pageFunction args), w, s⟩

/-- Delivery of a `Log.entryAdded` event with text `text`: every handler
subscribed to `Log.entryAdded` on the session is invoked once with the
entry; the list records the invocations `(handler, text)` in order. -/
def deliverLogEntryAdded (s : SessionState) (text : String) :
    List (HandlerRef × String) :=
  s.subscribed.filterMap fun sub =>
    if sub.1 = "Log.entryAdded" then some (sub.2, text) else none

/-- Scenario "call `evaluate` first, then deliver the context-created
event": the call runs; if it suspended on the pending promise, the event is
delivered and the awaiting call resumes against the resolved future; if it
already produced a value, that value stands and the event is delivered
afterwards.  Returns the evaluation outcome and the final worker state. -/
def evalThenEvent {Value : Type} (w : Worker)
    (ctxEval : ExecutionContext → String → List Value → Except String Value)
    (event : ContextDescription) (pageFunction : String) (args : List Value)
    (s : SessionState) :
    AwaitResult (Except String Value) × Worker :=
  match Worker.evaluate w ctxEval pageFunction args s with
  | ⟨.suspended, w₀, s₀⟩ =>
      let w₁ := (w₀.onExecutionContextCreated event).1
      ((Worker.evaluate w₁ ctxEval pageFunction args s₀).ret, w₁)
  | ⟨.value v, w₀, _⟩ => (.value v, (w₀.onExecutionContextCreated event).1)

/-- Scenario "deliver the context-created event first, then call
`evaluate`". -/
def eventThenEval {Value : Type} (w : Worker)
    (ctxEval : ExecutionContext → String → List Value → Except String Value)
    (event : ContextDescription) (pageFunction : String) (args : List Value)
    (s : SessionState) :
    AwaitResult (Except String Value) × Worker :=
  let w₁ := (w.onExecutionContextCreated event).1
  ((Worker.evaluate w₁ ctxEval pageFunction args s).ret, w₁)

end PyppeteerWorker

namespace PyppeteerWorker

/-! ## Helper lemmas -/

/-- Swallowing a send failure never alters the effect trace. -/
lemma trySendSwallow_effects (p : SessionState × Except String Unit) :
    (trySendSwallow p).effects = p.1.effects := by
  rcases p with ⟨s, r⟩
  cases r <;> rfl

/-- A guarded send appends exactly one send effect, and logs the failure
message iff the session rejects the method. -/
lemma trySendSwallow_send (c : Session) (m : String) (s : SessionState) :
    trySendSwallow (c.send m s) =
      { effects := s.effects ++ [.send m],
        logged := s.logged ++ if m ∈ c.raiseOn then [m ++ " failed"] else [] } := by
  unfold trySendSwallow Session.send debugError
  by_cases h : m ∈ c.raiseOn <;> simp [h]

/-- Construction computed in closed form: the worker with a pending promise,
the four session effects in program order, and the failure log determined by
which of the two sends the session rejects. -/
lemma init_eq (client : Session) (url : String) (sink : Nat) (s : SessionState) :
    Worker.init client url sink s =
      (⟨client, url, .pending⟩,
       { effects := s.effects ++
           [.subscribe "Runtime.executionContextCreated" .contextCreated,
            .send "Runtime.enable",
            .subscribe "Log.entryAdded" (.callback sink),
            .send "Log.enable"],
         logged := s.logged ++
           ((if "Runtime.enable" ∈ client.raiseOn
               then ["Runtime.enable" ++ " failed"] else []) ++
            (if "Log.enable" ∈ client.raiseOn
               then ["Log.enable" ++ " failed"] else [])) }) := by
  simp only [Worker.init, Session.on, trySendSwallow_send]
  by_cases h₁ : "Runtime.enable" ∈ client.raiseOn <;>
    by_cases h₂ : "Log.enable" ∈ client.raiseOn <;>
      simp [h₁, h₂]

end PyppeteerWorker

namespace PyppeteerWorker

/-! ## Concrete sample data, used by the witnesses -/

/-- A session that rejects no method. -/
def sampleSession : Session := ⟨0, []⟩

/-- A context-created event carrying context descriptor id 7. -/
def sampleEvent : ContextDescription := ⟨7⟩

/-- A second, distinct context-created event. -/
def secondEvent : ContextDescription := ⟨8⟩

/-- The proxy the sample worker's promise resolves to. -/
def sampleContext : ExecutionContext := ⟨sampleSession, sampleEvent⟩

/-- A freshly constructed worker: promise still pending. -/
def pendingWorker : Worker := ⟨sampleSession, "worker.js", .pending⟩

/-- The sample worker after its context-created event. -/
def resolvedWorker : Worker := ⟨sampleSession, "worker.js", .done sampleContext⟩

/-- A sample external `ExecutionContext.evaluate` behaviour: sums the
arguments (the spec's test double: `evaluate("1+2", ...)` with summation
semantics). -/
def sumEval : ExecutionContext → String → List Int → Except String Int :=
  fun _ _ args => .ok (args.foldl (· + ·) 0)

/-- A sample external `ExecutionContext.evaluateHandle` behaviour: returns a
handle to remote object 0 in the evaluating context. -/
def handleEval : ExecutionContext → String → List Int → Except String JSHandle :=
  fun ctx _ _ => .ok ⟨ctx, ctx.client, ⟨0⟩⟩

/-! ## Claim theorems -/

/-- C1: once the execution-context promise is resolved to `ctx`,
`Worker.evaluate` returns exactly the value of the resolved context's
`evaluate` — success or failure alike, propagated unchanged — and
`Worker.evaluateHandle` delegates identically to the context's
`evaluateHandle`; while the promise is still pending, both calls suspend
(they resume only upon its resolution). -/
theorem evaluate_delegates_to_resolved_context {Value : Type} (w w' : Worker)
    (ctx : ExecutionContext)
    (ctxEval : ExecutionContext → String → List Value → Except String Value)
    (ctxEvalHandle : ExecutionContext → String → List Value → Except String JSHandle)
    (pageFunction : String) (args : List Value) (s : SessionState)
    (h : w._executionContextPromise = .done ctx)
    (h' : w'._executionContextPromise = .pending) :
    (Worker.evaluate w ctxEval pageFunction args s).ret
        = .value (ctxEval ctx pageFunction args)
    ∧ (Worker.evaluateHandle w ctxEvalHandle pageFunction args s).ret
        = .value (ctxEvalHandle ctx pageFunction args)
    ∧ (Worker.evaluate w' ctxEval pageFunction args s).ret = .suspended
    ∧ (Worker.evaluateHandle w' ctxEvalHandle pageFunction args s).ret
        = .suspended := by
  refine ⟨?_, ?_, ?_, ?_⟩ <;>
    simp [Worker.evaluate, Worker.evaluateHandle, h, h']

/-- Witness for C1 at concrete inputs: the resolved sample worker delegates
`evaluate("1+2", [1, 2])` to the context's summing evaluate, and the pending
sample worker suspends. -/
theorem evaluate_delegates_to_resolved_context_witness :
    (resolvedWorker._executionContextPromise = .done sampleContext)
    ∧ (pendingWorker._executionContextPromise = .pending)
    ∧ ((Worker.evaluate resolvedWorker sumEval "1+2" [1, 2]
          initialSessionState).ret
          = .value (sumEval sampleContext "1+2" [1, 2])
      ∧ (Worker.evaluateHandle resolvedWorker handleEval "1+2" [1, 2]
          initialSessionState).ret
          = .value (handleEval sampleContext "1+2" [1, 2])
      ∧ (Worker.evaluate pendingWorker sumEval "1+2" [1, 2]
          initialSessionState).ret = .suspended
      ∧ (Worker.evaluateHandle pendingWorker handleEval "1+2" [1, 2]
          initialSessionState).ret = .suspended) :=
  ⟨rfl, rfl,
   evaluate_delegates_to_resolved_context resolvedWorker pendingWorker
     sampleContext sumEval handleEval "1+2" [1, 2] initialSessionState rfl rfl⟩

/-- C2: the execution-context promise is resolved at most once, by the first
context-created event: the first delivery resolves it to the proxy built
from that event's descriptor (`set_result` succeeds); a second delivery
raises `InvalidStateError`, the first delivery's value is retained, and
every reader of the promise observes that first value. -/
theorem promise_single_assignment (w : Worker) (e₁ e₂ : ContextDescription)
    (s : SessionState) (h : w._executionContextPromise = .pending) :
    ((w.onExecutionContextCreated e₁).1)._executionContextPromise
        = .done ⟨w._client, e₁⟩
    ∧ (w.onExecutionContextCreated e₁).2.1 = .ok ()
    ∧ (((w.onExecutionContextCreated e₁).1.onExecutionContextCreated
          e₂).1)._executionContextPromise
        = .done ⟨w._client, e₁⟩
    ∧ ((w.onExecutionContextCreated e₁).1.onExecutionContextCreated e₂).2.1
        = .error "InvalidStateError"
    ∧ (Worker.executionContext
        ((w.onExecutionContextCreated e₁).1.onExecutionContextCreated e₂).1
        s).ret
        = .value ⟨w._client, e₁⟩ := by
  refine ⟨?_, ?_, ?_, ?_, ?_⟩ <;>
    simp [Worker.onExecutionContextCreated, FutureState.setResult, h,
      Worker.executionContext]

/-- Witness for C2: delivering event 7 and then event 8 to the pending
sample worker retains the context built from event 7. -/
theorem promise_single_assignment_witness :
    (pendingWorker._executionContextPromise = .pending)
    ∧ (((pendingWorker.onExecutionContextCreated
          sampleEvent).1)._executionContextPromise
          = .done ⟨pendingWorker._client, sampleEvent⟩
      ∧ (pendingWorker.onExecutionContextCreated sampleEvent).2.1 = .ok ()
      ∧ (((pendingWorker.onExecutionContextCreated
            sampleEvent).1.onExecutionContextCreated
            secondEvent).1)._executionContextPromise
          = .done ⟨pendingWorker._client, sampleEvent⟩
      ∧ ((pendingWorker.onExecutionContextCreated
            sampleEvent).1.onExecutionContextCreated secondEvent).2.1
          = .error "InvalidStateError"
      ∧ (Worker.executionContext
          ((pendingWorker.onExecutionContextCreated
            sampleEvent).1.onExecutionContextCreated secondEvent).1
          initialSessionState).ret
          = .value ⟨pendingWorker._client, sampleEvent⟩) :=
  ⟨rfl, promise_single_assignment pendingWorker sampleEvent secondEvent
    initialSessionState rfl⟩

end PyppeteerWorker

namespace PyppeteerWorker

/-- C3: construction never raises.  For every session — in particular every
session whose `send` of `Runtime.enable` or `Log.enable` raises —
`Worker.init` completes normally: the send failures are logged
(`debugError`) and swallowed, the constructed handle holds the URL and a
pending promise, and the handle stays usable: if a context-created event
later arrives, `executionContext` resolves and `evaluate` delegates as
normal.  (Raising sends are modelled by `Session.send` returning
`Except.error`; the constructor's `try/except` — `trySendSwallow` — catches
every such error, so `Worker.init` is a total function into
`Worker × SessionState`.) -/
theorem init_never_raises_handle_usable {Value : Type} (client : Session)
    (url : String) (sink : Nat) (s : SessionState) (event : ContextDescription)
    (ctxEval : ExecutionContext → String → List Value → Except String Value)
    (pageFunction : String) (args : List Value) :
    (Worker.init client url sink s).1
        = ⟨client, url, .pending⟩
    ∧ (Worker.init client url sink s).2.logged
        = s.logged ++
          ((if "Runtime.enable" ∈ client.raiseOn
              then ["Runtime.enable" ++ " failed"] else []) ++
           (if "Log.enable" ∈ client.raiseOn
              then ["Log.enable" ++ " failed"] else []))
    ∧ (Worker.executionContext
        (((Worker.init client url sink s).1).onExecutionContextCreated event).1
        ((Worker.init client url sink s).2)).ret
        = .value ⟨client, event⟩
    ∧ (Worker.evaluate
        (((Worker.init client url sink s).1).onExecutionContextCreated event).1
        ctxEval pageFunction args ((Worker.init client url sink s).2)).ret
        = .value (ctxEval ⟨client, event⟩ pageFunction args) := by
  refine ⟨?_, ?_, ?_, ?_⟩ <;>
    simp [init_eq, Worker.onExecutionContextCreated, FutureState.setResult,
      Worker.executionContext, Worker.evaluate]

/-- C4: after the first context-created event, every `executionContext()`
call — including a call that was already pending before the event, which
suspends on the promise and resumes at resolution — resolves to the
identical proxy: all `n` of `n` calls on the resolved handle return the one
resolved value. -/
theorem executionContext_idempotent_fanout (w : Worker)
    (e : ContextDescription) (s : SessionState) (n : Nat)
    (h : w._executionContextPromise = .pending) :
    (Worker.executionContext w s).ret = .suspended
    ∧ (Worker.executionContext (w.onExecutionContextCreated e).1 s).ret
        = .value ⟨w._client, e⟩
    ∧ (List.replicate n
        (Worker.executionContext (w.onExecutionContextCreated e).1 s).ret).count
        (AwaitResult.value ⟨w._client, e⟩) = n := by
  refine ⟨?_, ?_, ?_⟩ <;>
    simp [Worker.executionContext, Worker.onExecutionContextCreated,
      FutureState.setResult, h, List.count_replicate_self]

/-- Witness for C4: three `executionContext()` calls on the sample worker
after its event all return the proxy built from event 7. -/
theorem executionContext_idempotent_fanout_witness :
    (pendingWorker._executionContextPromise = .pending)
    ∧ ((Worker.executionContext pendingWorker initialSessionState).ret
          = .suspended
      ∧ (Worker.executionContext
          (pendingWorker.onExecutionContextCreated sampleEvent).1
          initialSessionState).ret
          = .value ⟨pendingWorker._client, sampleEvent⟩
      ∧ (List.replicate 3
          (Worker.executionContext
            (pendingWorker.onExecutionContextCreated sampleEvent).1
            initialSessionState).ret).count
          (AwaitResult.value ⟨pendingWorker._client, sampleEvent⟩) = 3) :=
  ⟨rfl, executionContext_idempotent_fanout pendingWorker sampleEvent
    initialSessionState 3 rfl⟩

/-- C5: evaluation is order independent relative to event delivery: starting
`evaluate(expr)` while the promise is pending (the call suspends), then
delivering the context-created event and resuming, produces the same
outcome and the same final worker state as delivering the event first and
then calling `evaluate(expr)`. -/
theorem evaluate_order_independent {Value : Type} (w : Worker)
    (ctxEval : ExecutionContext → String → List Value → Except String Value)
    (event : ContextDescription) (pageFunction : String) (args : List Value)
    (s : SessionState) (h : w._executionContextPromise = .pending) :
    evalThenEvent w ctxEval event pageFunction args s
      = eventThenEval w ctxEval event pageFunction args s := by
  simp [evalThenEvent, eventThenEval, Worker.evaluate, h]

/-- Witness for C5: on the pending sample worker with the summing evaluate,
evaluate-then-event equals event-then-evaluate. -/
theorem evaluate_order_independent_witness :
    (pendingWorker._executionContextPromise = .pending)
    ∧ evalThenEvent pendingWorker sumEval sampleEvent "1+2" [1, 2]
        initialSessionState
      = eventThenEval pendingWorker sumEval sampleEvent "1+2" [1, 2]
        initialSessionState :=
  ⟨rfl, evaluate_order_independent pendingWorker sumEval sampleEvent
    "1+2" [1, 2] initialSessionState rfl⟩

end PyppeteerWorker

namespace PyppeteerWorker

/-- C6: the caller-supplied log-entry sink is subscribed to the session's
`Log.entryAdded` event unchanged — the registered handler is the very
callback passed to the constructor, with no wrapping — and it is the only
`Log.entryAdded` handler registered; hence delivering a log event with text
"1" (here before any context event: right after construction, with the
promise still pending) invokes the sink exactly once, with exactly that
text. -/
theorem log_sink_passthrough (client : Session) (url : String) (sink : Nat) :
    (((Worker.init client url sink initialSessionState).2).subscribed.filter
        (fun sub => sub.1 = "Log.entryAdded"))
      = [("Log.entryAdded", HandlerRef.callback sink)]
    ∧ deliverLogEntryAdded
        ((Worker.init client url sink initialSessionState).2) "1"
      = [(HandlerRef.callback sink, "1")] := by
  constructor <;>
    simp [init_eq, initialSessionState, SessionState.subscribed,
      deliverLogEntryAdded]

/-- C7: `url` returns exactly the URL passed at construction — a direct
field read, with no await and no failure path — and the URL is immutable:
it is unchanged by delivery of a context-created event, the only operation
that mutates the handle's state. -/
theorem url_immutable (client : Session) (url : String) (sink : Nat)
    (s : SessionState) (e : ContextDescription) :
    (Worker.url (Worker.init client url sink s).1
        (Worker.init client url sink s).2).ret = url
    ∧ ((Worker.init client url sink s).1)._url = url
    ∧ ((((Worker.init client url sink s).1).onExecutionContextCreated
          e).1)._url = url
    ∧ (Worker.url
        (((Worker.init client url sink s).1).onExecutionContextCreated e).1
        s).ret = url := by
  refine ⟨?_, ?_, ?_, ?_⟩ <;>
    simp [init_eq, Worker.url, Worker.onExecutionContextCreated]

/-- C8: construction performs exactly four session effects, in exactly this
order: subscribe the context-created handler on
`Runtime.executionContextCreated`, send `Runtime.enable`, subscribe the
caller's sink on `Log.entryAdded`, send `Log.enable` — each registration
before its send, and nothing else touches the session. -/
theorem init_effect_order (client : Session) (url : String) (sink : Nat)
    (s : SessionState) :
    (Worker.init client url sink s).2.effects = s.effects ++
      [.subscribe "Runtime.executionContextCreated" HandlerRef.contextCreated,
       .send "Runtime.enable",
       .subscribe "Log.entryAdded" (HandlerRef.callback sink),
       .send "Log.enable"] := by
  simp [init_eq]

/-- C9: the handle factory built by the context-created handler is constant
and bound to this worker's single execution context: for every remote
object it returns a `JSHandle` whose context is the proxy built from that
same event's descriptor — the very value the promise is resolved with — so
any two handles it produces reference the same context. -/
theorem jsHandleFactory_binds_single_context (w : Worker)
    (e : ContextDescription) (ro ro₂ : RemoteObject)
    (h : w._executionContextPromise = .pending) :
    (w.onExecutionContextCreated e).2.2 ro
        = some ⟨⟨w._client, e⟩, w._client, ro⟩
    ∧ ((w.onExecutionContextCreated e).2.2 ro).map JSHandle.context
        = ((w.onExecutionContextCreated e).2.2 ro₂).map JSHandle.context
    ∧ ((w.onExecutionContextCreated e).1)._executionContextPromise
        = .done ⟨w._client, e⟩ := by
  refine ⟨?_, ?_, ?_⟩ <;>
    simp [Worker.onExecutionContextCreated, FutureState.setResult, h]

/-- Witness for C9: on the pending sample worker's event, the factory binds
remote objects 3 and 4 to the one context built from event 7. -/
theorem jsHandleFactory_binds_single_context_witness :
    (pendingWorker._executionContextPromise = .pending)
    ∧ ((pendingWorker.onExecutionContextCreated sampleEvent).2.2 ⟨3⟩
          = some ⟨⟨pendingWorker._client, sampleEvent⟩,
              pendingWorker._client, ⟨3⟩⟩
      ∧ ((pendingWorker.onExecutionContextCreated
            sampleEvent).2.2 ⟨3⟩).map JSHandle.context
          = ((pendingWorker.onExecutionContextCreated
            sampleEvent).2.2 ⟨4⟩).map JSHandle.context
      ∧ ((pendingWorker.onExecutionContextCreated
            sampleEvent).1)._executionContextPromise
          = .done ⟨pendingWorker._client, sampleEvent⟩) :=
  ⟨rfl, jsHandleFactory_binds_single_context pendingWorker sampleEvent
    ⟨3⟩ ⟨4⟩ rfl⟩

/-- C10: the consumer-facing operations `url`, `executionContext`,
`evaluate` and `evaluateHandle` are session-effect free and state
preserving: each returns the worker — every field, including the promise —
and the session state (effect trace and subscriptions) unchanged; in
particular no accessor resolves the promise, which changes only in the
context-created event handler. -/
theorem accessors_effect_free {Value : Type} (w : Worker) (s : SessionState)
    (ctxEval : ExecutionContext → String → List Value → Except String Value)
    (ctxEvalHandle : ExecutionContext → String → List Value → Except String JSHandle)
    (pageFunction : String) (args : List Value) :
    (Worker.url w s).worker = w ∧ (Worker.url w s).session = s
    ∧ (Worker.executionContext w s).worker = w
    ∧ (Worker.executionContext w s).session = s
    ∧ (Worker.evaluate w ctxEval pageFunction args s).worker = w
    ∧ (Worker.evaluate w ctxEval pageFunction args s).session = s
    ∧ (Worker.evaluateHandle w ctxEvalHandle pageFunction args s).worker = w
    ∧ (Worker.evaluateHandle w ctxEvalHandle pageFunction args s).session
        = s := by
  cases hp : w._executionContextPromise <;>
    simp [Worker.url, Worker.executionContext, Worker.evaluate,
      Worker.evaluateHandle, hp]

end PyppeteerWorker
